import Mathlib

/-!
Shallow embedding of the multi-tenant RBAC core of the SaaS-IA repository.

Sources embedded:
- `src/lib/rbac/types.ts` : roles, permissions
- `src/lib/rbac/permissions.ts` : `ROLE_PERMISSIONS` table and the pure
  role→permission queries
- `src/lib/rbac/user.ts` (`getUserRole`), `src/lib/rbac/check.ts`
  (`checkPermission`, `checkAllPermissions`, `checkAnyPermission`,
  `requirePermission`)
- `src/lib/profile.ts` (`getUserProfile`, `ensureUserProfile`)
- `src/app/(admin)/admin/users/actions.ts` (the FASE 9 hardened versions of
  `createUser`, `updateUserRole`, `deleteUser`)

The external Supabase stores are modelled as explicit state: a `DB` record of
company rows, profile rows and auth (identity) users.  A session is the
optional authenticated user returned by `supabase.auth.getUser()`.
External failures (auth-provider errors, storage write failures) are injected
through explicit boolean/`Except` parameters, mirroring the exact branch the
TypeScript takes on each.  `console.log`/`console.error` emissions inside the
admin actions are modelled as a list of `LogEntry` values in each outcome.

Schema facts used by the model (from
`supabase/migrations/002_fase8_complete_schema.sql`): `profiles.company_id`
has a NOT NULL foreign key to `companies(id)`, so a profile row always joins
to an existing company row; the model therefore folds the unreachable
"profile without company" join result into the not-found case.
-/

namespace SaaS

/-! ## Roles and permissions (`src/lib/rbac/types.ts`) -/

/-- The two valid role tags.  Stored roles are raw strings and are validated
against `ROLES_ADMIN` / `ROLES_USER` exactly as `getUserRole` does. -/
inductive Role where
  | admin
  | user
deriving DecidableEq, Repr

def ROLES_ADMIN : String := "admin"
def ROLES_USER : String := "user"

/-- The ten permission tags of `PERMISSIONS` in `src/lib/rbac/types.ts`. -/
inductive Permission where
  | dashboardView
  | financialDataView
  | financialDataCreate
  | financialDataUpdate
  | financialDataDelete
  | csvUpload
  | aiQuery
  | aiAccess
  | adminPanel
  | userManage
deriving DecidableEq, Repr

/-! ## Permission table (`src/lib/rbac/permissions.ts`) -/

/-- `ROLE_PERMISSIONS`: the static role→permissions table, copied row by row
from `src/lib/rbac/permissions.ts`. -/
def ROLE_PERMISSIONS : Role → List Permission
  | .admin =>
      [.dashboardView, .financialDataView, .financialDataCreate,
       .financialDataUpdate, .financialDataDelete, .csvUpload, .aiQuery,
       .aiAccess, .adminPanel, .userManage]
  | .user =>
      [.dashboardView, .financialDataView, .csvUpload, .aiQuery, .aiAccess]

/-- `roleHasPermission`: membership test in the role's table entry
(`rolePermissions.includes(permission)`). -/
def roleHasPermission (role : Role) (permission : Permission) : Bool :=
  (ROLE_PERMISSIONS role).contains permission

/-- `roleHasAllPermissions`: `requiredPermissions.every(...)`. -/
def roleHasAllPermissions (role : Role) (requiredPermissions : List Permission) : Bool :=
  requiredPermissions.all (fun permission => roleHasPermission role permission)

/-- `roleHasAnyPermission`: `requiredPermissions.some(...)`. -/
def roleHasAnyPermission (role : Role) (requiredPermissions : List Permission) : Bool :=
  requiredPermissions.any (fun permission => roleHasPermission role permission)

/-! ## Data model: the external stores -/

/-- A row of `auth.users` as visible to the code: id plus optional email. -/
structure AuthUser where
  id : String
  email : Option String
deriving DecidableEq, Repr

/-- A row of `public.companies` (`Company` in `src/lib/profile.ts`). -/
structure Company where
  id : String
  name : String
  owner_id : String
  created_at : String
deriving DecidableEq, Repr

/-- A row of `public.profiles` (`Profile` in `src/lib/profile.ts`).  The
`role` field is a raw string: the DB CHECK constraint restricts it to
`admin`/`user`, but the code re-validates defensively, so the model keeps it
unconstrained. -/
structure Profile where
  id : String
  user_id : String
  company_id : String
  role : String
  created_at : String
deriving DecidableEq, Repr

/-- `UserProfile` of `src/lib/profile.ts`: a profile joined with its company. -/
structure UserProfile where
  profile : Profile
  company : Company
deriving DecidableEq, Repr

/-- The state of the external stores: company rows, profile rows, and the
auth-provider identities. -/
structure DB where
  companies : List Company
  profiles : List Profile
  authUsers : List AuthUser
deriving DecidableEq, Repr

/-- The session: `supabase.auth.getUser()` yields either the authenticated
user or nothing. -/
abbrev Session := Option AuthUser

/-! ## Profile lookup (`src/lib/profile.ts`) -/

/-- `getUserProfile`: read-only lookup of the caller's profile joined with its
company (`select('*, companies(*)').eq('user_id', user.id).single()`).
Unauthenticated or no profile row ⇒ `none`.  The FK from
`profiles.company_id` to `companies.id` makes a dangling company join
unreachable; the model returns `none` there as well. -/
def getUserProfile (s : Session) (db : DB) : Option UserProfile :=
  match s with
  | none => none
  | some u =>
    match db.profiles.find? (fun p => decide (p.user_id = u.id)) with
    | none => none
    | some p =>
      match db.companies.find? (fun c => decide (c.id = p.company_id)) with
      | none => none
      | some c => some ⟨p, c⟩

/-! ## Role resolver (`src/lib/rbac/user.ts`) -/

/-- `getUserRole`: reads `profiles.role`; no profile ⇒ `null`; a stored role
that is neither `admin` nor `user` ⇒ `null`.  No default is ever
substituted. -/
def getUserRole (s : Session) (db : DB) : Option Role :=
  match getUserProfile s db with
  | none => none
  | some userProfile =>
    if userProfile.profile.role = ROLES_ADMIN then some Role.admin
    else if userProfile.profile.role = ROLES_USER then some Role.user
    else none

/-! ## Permission evaluator (`src/lib/rbac/check.ts`) -/

/-- `checkPermission`: `null` role ⇒ `false`, else `roleHasPermission`. -/
def checkPermission (s : Session) (db : DB) (permission : Permission) : Bool :=
  match getUserRole s db with
  | none => false
  | some role => roleHasPermission role permission

/-- `checkAllPermissions`: `null` role ⇒ `false`, else `roleHasAllPermissions`. -/
def checkAllPermissions (s : Session) (db : DB) (permissions : List Permission) : Bool :=
  match getUserRole s db with
  | none => false
  | some role => roleHasAllPermissions role permissions

/-- `checkAnyPermission`: `null` role ⇒ `false`, else `roleHasAnyPermission`. -/
def checkAnyPermission (s : Session) (db : DB) (permissions : List Permission) : Bool :=
  match getUserRole s db with
  | none => false
  | some role => roleHasAnyPermission role permissions

/-- The error message thrown by `requirePermission`. -/
def PERMISSION_DENIED_MSG : String :=
  "Você não tem permissão para realizar esta ação"

/-- `requirePermission`: throws (models `throw new Error(...)` as
`Except.error`) exactly when `checkPermission` is false. -/
def requirePermission (s : Session) (db : DB) (permission : Permission) :
    Except String Unit :=
  if checkPermission s db permission then Except.ok () else Except.error PERMISSION_DENIED_MSG

/-! ## Admin server actions (`src/app/(admin)/admin/users/actions.ts`, FASE 9)

The FASE 9 hardened versions are embedded (the first copy in the file; the
claims' line references point there).  Storage/identity-provider failures are
injected through explicit parameters; each of the injected branches mirrors
the corresponding `if (error)` branch of the TypeScript.
-/

/-- One emitted log record.  `adminAction` models `logAdminAction`'s
`console.log('[ADMIN_ACTION]', {timestamp, action, adminUserId, targetUserId,
...details})` (the wall-clock timestamp is not modelled); `consoleError`
models a `console.error` call, tagged by its call site. -/
inductive LogEntry where
  | adminAction (action : String) (adminUserId : String) (targetUserId : String)
      (details : List (String × String))
  | consoleError (site : String)
deriving DecidableEq, Repr

/-- `AdminActionResult` of `actions.ts` (the informational `data` payload of
type `unknown` is not modelled). -/
structure AdminActionResult where
  success : Bool
  error : Option String := none
  message : Option String := none
deriving DecidableEq, Repr

deriving instance DecidableEq for Except

/-- The observable outcome of one admin server action: the returned value
(`Except.error` models an uncaught `throw`, notably `requirePermission`'s),
the resulting store state, and the emitted log records. -/
structure ActionOutcome where
  result : Except String AdminActionResult
  db : DB
  logs : List LogEntry
deriving DecidableEq, Repr

/-- Abbreviation for the ubiquitous `return { success: false, error: ... }`
with unchanged stores and no log output. -/
def failWith (db : DB) (e : String) : ActionOutcome :=
  ⟨Except.ok { success := false, error := some e }, db, []⟩

/-- JS `String.prototype.trim()`: strip leading and trailing whitespace.
(Defined over the character list so that proofs can evaluate it; Lean's own
`String.trim` does not reduce inside the kernel.) -/
def jsTrim (s : String) : String :=
  String.mk (((s.data.dropWhile Char.isWhitespace).reverse.dropWhile Char.isWhitespace).reverse)

/-- JS `String.prototype.toLowerCase()` over the character list. -/
def jsToLower (s : String) : String :=
  String.mk (s.data.map Char.toLower)

/-- One character of the `[^\s@]` atom of `createUser`'s email regexp. -/
def isEmailAtomChar (c : Char) : Bool :=
  !c.isWhitespace && !(c == '@')

/-- `emailRegex.test(trimmedEmail)` for
`/^[^\s@]+@[^\s@]+\.[^\s@]+$/`: the string decomposes as `A@B.C` with `A`,
`B`, `C` nonempty runs of non-whitespace, non-`@` characters.  Equivalently:
some position `i ≥ 1` holds `'@'`, some position `j` with `i + 1 < j` and
`j + 1 < length` holds `'.'`, and every position other than `i` holds an atom
character (`'.'` itself is an atom character, so only the `'@'` position is
exempted). -/
def emailRegexTest (s : String) : Bool :=
  let cs := s.data
  let n := cs.length
  (List.range n).any fun i =>
    (List.range n).any fun j =>
      decide (1 ≤ i) && decide (i + 1 < j) && decide (j + 1 < n) &&
      (cs.getD i ' ' == '@') && (cs.getD j ' ' == '.') &&
      ((List.range n).all fun k => decide (k = i) || isEmailAtomChar (cs.getD k ' '))

/-- `authError.message.includes('already registered')`. -/
def containsSubstr (s pat : String) : Bool :=
  (List.range (s.data.length + 1)).any fun i => pat.data.isPrefixOf (s.data.drop i)

/-- Injected external results for one `createUser` run: the auth-provider
`createUser` call (new user id, or the provider's error message), whether the
profile insert fails, and whether the best-effort cleanup delete fails. -/
structure CreateEnv where
  authCreate : Except String String
  newProfileId : String
  profileInsertFails : Bool
  cleanupFails : Bool
deriving DecidableEq, Repr

/-- The final persistence-and-audit step of `createUser`, reached once every
check has passed and the auth identity `newUserId` exists. -/
def createUserApply (db1 : DB) (adminProfile : UserProfile) (env : CreateEnv)
    (trimmedEmail role newUserId : String) : ActionOutcome :=
  if env.profileInsertFails then
    -- rollback: try to delete the identity created just above
    if env.cleanupFails then
      ⟨Except.ok { success := false, error := some "Usuário criado, mas houve um erro ao configurar o perfil. Entre em contato com o suporte." },
       db1, [LogEntry.consoleError "createUser.cleanup"]⟩
    else
      ⟨Except.ok { success := false, error := some "Usuário criado, mas houve um erro ao configurar o perfil. Entre em contato com o suporte." },
       { db1 with authUsers := db1.authUsers.filter (fun a => decide (¬ a.id = newUserId)) }, []⟩
  else
    ⟨Except.ok { success := true, message := some ("Usuário " ++ trimmedEmail ++ " criado com sucesso") },
     { db1 with profiles := db1.profiles ++
        [⟨env.newProfileId, newUserId, adminProfile.company.id, role, ""⟩] },
     [LogEntry.adminAction "create" adminProfile.profile.user_id newUserId
        [("email", trimmedEmail), ("role", role), ("companyId", adminProfile.company.id)]]⟩

/-- `createUser(email, password, role)` (FASE 9).  Permission check first,
then validations, then the two-phase create with best-effort rollback. -/
def createUser (s : Session) (db : DB) (env : CreateEnv)
    (email password role : String) : ActionOutcome :=
  match requirePermission s db Permission.userManage with
  | Except.error e => ⟨Except.error e, db, []⟩
  | Except.ok _ =>
    let trimmedEmail := jsToLower (jsTrim email)
    if trimmedEmail = "" then
      failWith db "E-mail é obrigatório"
    else if ¬ emailRegexTest trimmedEmail then
      failWith db "E-mail inválido"
    else if password.length < 6 then
      failWith db "A senha deve ter no mínimo 6 caracteres"
    else if role ≠ ROLES_ADMIN ∧ role ≠ ROLES_USER then
      failWith db "Role inválido. Deve ser \"admin\" ou \"user\""
    else
      match getUserProfile s db with
      | none => failWith db "Não foi possível identificar sua conta. Faça login novamente."
      | some adminProfile =>
        if adminProfile.company.id = "" then
          failWith db "Empresa não encontrada. Entre em contato com o suporte."
        else
          match env.authCreate with
          | Except.error msg =>
            if containsSubstr msg "already registered" then
              failWith db "Este e-mail já está cadastrado no sistema"
            else
              failWith db "Não foi possível criar o usuário. Tente novamente."
          | Except.ok newUserId =>
            -- the identity now exists in the auth store
            createUserApply
              { db with authUsers := db.authUsers ++ [⟨newUserId, some trimmedEmail⟩] }
              adminProfile env trimmedEmail role newUserId

/-- The final update-audit step of `updateUserRole`, reached once every guard
has passed (`update({role: newRole}).eq('id', profileId)`). -/
def updateUserRoleApply (db : DB) (adminProfile : UserProfile) (targetProfile : Profile)
    (updateFails : Bool) (profileId newRole : String) : ActionOutcome :=
  if updateFails then
    ⟨Except.ok { success := false, error := some "Não foi possível atualizar o role do usuário. Tente novamente." },
     db, [LogEntry.consoleError "updateUserRole.update"]⟩
  else
    ⟨Except.ok { success := true, message := some ("Role do usuário atualizado para " ++ (if newRole = ROLES_ADMIN then "administrador" else "usuário")) },
     { db with profiles := db.profiles.map (fun p => if p.id = profileId then { p with role := newRole } else p) },
     [LogEntry.adminAction "update_role" adminProfile.profile.user_id targetProfile.user_id
        [("profileId", profileId), ("oldRole", targetProfile.role),
         ("newRole", newRole), ("companyId", adminProfile.company.id)]]⟩

/-- `updateUserRole(profileId, newRole)` (FASE 9): permission check, input
validation, target fetch, tenant-isolation check, last-admin self-demotion
guard, then the update. -/
def updateUserRole (s : Session) (db : DB) (updateFails : Bool)
    (profileId newRole : String) : ActionOutcome :=
  match requirePermission s db Permission.userManage with
  | Except.error e => ⟨Except.error e, db, []⟩
  | Except.ok _ =>
    if jsTrim profileId = "" then
      failWith db "ID do usuário é obrigatório"
    else if newRole ≠ ROLES_ADMIN ∧ newRole ≠ ROLES_USER then
      failWith db "Role inválido. Deve ser \"admin\" ou \"user\""
    else
      match getUserProfile s db with
      | none => failWith db "Não foi possível identificar sua conta. Faça login novamente."
      | some adminProfile =>
        match db.profiles.find? (fun p => decide (p.id = profileId)) with
        | none => failWith db "Usuário não encontrado"
        | some targetProfile =>
          if targetProfile.company_id ≠ adminProfile.company.id then
            failWith db "Operação não permitida"
          else
            match s with
            | none => updateUserRoleApply db adminProfile targetProfile updateFails profileId newRole
            | some u =>
              if targetProfile.user_id = u.id ∧ targetProfile.role = ROLES_ADMIN ∧
                  newRole = ROLES_USER then
                if (db.profiles.filter (fun p =>
                    decide (p.company_id = adminProfile.company.id ∧
                      p.role = ROLES_ADMIN ∧ ¬ p.user_id = u.id))).isEmpty then
                  failWith db "Você não pode rebaixar a si mesmo sendo o único administrador"
                else
                  updateUserRoleApply db adminProfile targetProfile updateFails profileId newRole
              else
                updateUserRoleApply db adminProfile targetProfile updateFails profileId newRole

/-- The final delete-audit step of `deleteUser`: the auth-provider delete,
whose storage-level cascade also removes the profile rows of that user. -/
def deleteUserApply (db : DB) (adminProfile : UserProfile) (targetProfile : Profile)
    (deleteFails : Bool) (userId : String) : ActionOutcome :=
  if deleteFails then
    ⟨Except.ok { success := false, error := some "Não foi possível deletar o usuário. Tente novamente." },
     db, [LogEntry.consoleError "deleteUser.delete"]⟩
  else
    ⟨Except.ok { success := true, message := some "Usuário removido com sucesso" },
     { db with authUsers := db.authUsers.filter (fun a => decide (¬ a.id = userId)),
               profiles := db.profiles.filter (fun p => decide (¬ p.user_id = userId)) },
     [LogEntry.adminAction "delete" adminProfile.profile.user_id userId
        [("targetRole", targetProfile.role), ("companyId", adminProfile.company.id)]]⟩

/-- `deleteUser(userId)` (FASE 9): permission check, input validation, target
fetch, tenant-isolation check, self-deletion guard, last-admin guard, then
the cascading delete. -/
def deleteUser (s : Session) (db : DB) (deleteFails : Bool) (userId : String) :
    ActionOutcome :=
  match requirePermission s db Permission.userManage with
  | Except.error e => ⟨Except.error e, db, []⟩
  | Except.ok _ =>
    if jsTrim userId = "" then
      failWith db "ID do usuário é obrigatório"
    else
      match getUserProfile s db with
      | none => failWith db "Não foi possível identificar sua conta. Faça login novamente."
      | some adminProfile =>
        match db.profiles.find? (fun p => decide (p.user_id = userId)) with
        | none => failWith db "Usuário não encontrado"
        | some targetProfile =>
          if targetProfile.company_id ≠ adminProfile.company.id then
            failWith db "Operação não permitida"
          else if (match s with | none => false | some u => decide (u.id = userId)) then
            failWith db "Você não pode deletar sua própria conta"
          else if targetProfile.role = ROLES_ADMIN ∧
              (db.profiles.filter (fun p =>
                decide (p.company_id = adminProfile.company.id ∧
                  p.role = ROLES_ADMIN ∧ ¬ p.user_id = userId))).isEmpty then
            failWith db "Não é possível deletar o último administrador da empresa"
          else
            deleteUserApply db adminProfile targetProfile deleteFails userId

/-! ## Lazy profile creation (`ensureUserProfile` of `src/lib/profile.ts`) -/

/-- Injected external results for one `ensureUserProfile` run. -/
structure EnsureEnv where
  newCompanyId : String
  newProfileId : String
  companyInsertFails : Bool
  profileInsertFails : Bool
  companyCleanupFails : Bool
deriving DecidableEq, Repr

/-- The outcome of `ensureUserProfile`: the returned value (`Except.error`
models its `throw new Error(...)`) and the resulting store state. -/
structure EnsureOutcome where
  result : Except String (Option UserProfile)
  db : DB
deriving DecidableEq, Repr

/-- The company row `ensureUserProfile` inserts: named after the user's email
(`Empresa de ...`), owned by the user. -/
def ensureNewCompany (u : AuthUser) (env : EnsureEnv) : Company :=
  ⟨env.newCompanyId,
   "Empresa de " ++ (match u.email with | some e => e | none => "Usuário"),
   u.id, ""⟩

/-- The profile row `ensureUserProfile` inserts: bound to the new company with
the hard-coded default role `'user'` (`src/lib/profile.ts` line 99). -/
def ensureNewProfile (u : AuthUser) (env : EnsureEnv) : Profile :=
  ⟨env.newProfileId, u.id, env.newCompanyId, "user", ""⟩

/-- `ensureUserProfile`: returns the existing profile+company if present;
otherwise creates a company named after the user's email and a profile with
role `'user'`, rolling the company back (best-effort) if the profile insert
fails. -/
def ensureUserProfile (s : Session) (db : DB) (env : EnsureEnv) : EnsureOutcome :=
  match s with
  | none => ⟨Except.ok none, db⟩
  | some u =>
    match getUserProfile (some u) db with
    | some existing => ⟨Except.ok (some existing), db⟩
    | none =>
      if env.companyInsertFails then
        ⟨Except.error "Erro ao criar empresa. Tente novamente.", db⟩
      else
        let db1 : DB := { db with companies := db.companies ++ [ensureNewCompany u env] }
        if env.profileInsertFails then
          ⟨Except.error "Erro ao criar perfil. Tente novamente.",
           if env.companyCleanupFails then db1
           else { db1 with companies :=
              db1.companies.filter (fun c => decide (¬ c.id = env.newCompanyId)) }⟩
        else
          ⟨Except.ok (some ⟨ensureNewProfile u env, ensureNewCompany u env⟩),
           { db1 with profiles := db1.profiles ++ [ensureNewProfile u env] }⟩

end SaaS

namespace SaaS

/-- Claim-support lemma: a successful profile lookup pins the session user and
the found rows' key fields. -/
theorem getUserProfile_spec (s : Session) (db : DB) (up : UserProfile)
    (h : getUserProfile s db = some up) :
    ∃ u, s = some u ∧ up.profile.user_id = u.id ∧ up.profile ∈ db.profiles ∧
      up.company.id = up.profile.company_id := by
  cases s with
  | none => simp [getUserProfile] at h
  | some u =>
    refine ⟨u, rfl, ?_⟩
    simp only [getUserProfile] at h
    split at h
    next => simp at h
    next p hp =>
      split at h
      next => simp at h
      next c hc =>
        simp only [Option.some.injEq] at h
        subst h
        have hpu := List.find?_some hp
        have hcc := List.find?_some hc
        simp only [decide_eq_true_eq] at hpu hcc
        exact ⟨hpu, List.mem_of_find?_eq_some hp, hcc⟩

/-- Claim-support lemma: a caller passing the `USER_MANAGE` check is an
authenticated user whose stored profile role is the admin tag. -/
theorem checkPermission_userManage_spec (s : Session) (db : DB)
    (h : checkPermission s db Permission.userManage = true) :
    ∃ u up, s = some u ∧ getUserProfile s db = some up ∧
      up.profile.role = ROLES_ADMIN := by
  unfold checkPermission at h
  split at h
  next => simp at h
  next role hrole =>
    simp only [getUserRole] at hrole
    split at hrole
    next => simp at hrole
    next up hup =>
      obtain ⟨u, hs, -⟩ := getUserProfile_spec s db up hup
      refine ⟨u, up, hs, hup, ?_⟩
      by_cases ha : up.profile.role = ROLES_ADMIN
      · exact ha
      · exfalso
        rw [if_neg ha] at hrole
        by_cases hu : up.profile.role = ROLES_USER
        · rw [if_pos hu] at hrole
          simp only [Option.some.injEq] at hrole
          subst hrole
          exact absurd h (by decide)
        · rw [if_neg hu] at hrole; simp at hrole

/-- Claim-support lemma: a passing check makes `requirePermission` succeed. -/
theorem requirePermission_ok (s : Session) (db : DB) (p : Permission)
    (h : checkPermission s db p = true) :
    requirePermission s db p = Except.ok () := by
  simp [requirePermission, h]

/-- Claim-support lemma: a failing check makes `requirePermission` throw. -/
theorem requirePermission_denied (s : Session) (db : DB) (p : Permission)
    (h : checkPermission s db p = false) :
    requirePermission s db p = Except.error PERMISSION_DENIED_MSG := by
  simp [requirePermission, h]

/-- Claim-support lemma: `updateUserRole` against a target profile of a
different company stops at the tenant-isolation check with the generic
denial, unchanged stores, and no log output. -/
theorem updateUserRole_crossTenant (s : Session) (db : DB) (uf : Bool)
    (ap : UserProfile) (tgt : Profile) (newRole : String)
    (hperm : checkPermission s db Permission.userManage = true)
    (hap : getUserProfile s db = some ap)
    (htgt : db.profiles.find? (fun p => decide (p.id = tgt.id)) = some tgt)
    (hcross : tgt.company_id ≠ ap.company.id)
    (htrim : jsTrim tgt.id ≠ "")
    (hrole : newRole = ROLES_ADMIN ∨ newRole = ROLES_USER) :
    updateUserRole s db uf tgt.id newRole = failWith db "Operação não permitida" := by
  have hreq := requirePermission_ok s db Permission.userManage hperm
  have hrole' : ¬ (newRole ≠ ROLES_ADMIN ∧ newRole ≠ ROLES_USER) := by
    rcases hrole with h | h <;> simp [h]
  simp [updateUserRole, hreq, htrim, hrole', hap, htgt, hcross]

/-- Claim-support lemma: `deleteUser` against a target profile of a different
company stops at the tenant-isolation check with the generic denial,
unchanged stores, and no log output. -/
theorem deleteUser_crossTenant (s : Session) (db : DB) (df : Bool)
    (ap : UserProfile) (tgt : Profile)
    (hperm : checkPermission s db Permission.userManage = true)
    (hap : getUserProfile s db = some ap)
    (htgt : db.profiles.find? (fun p => decide (p.user_id = tgt.user_id)) = some tgt)
    (hcross : tgt.company_id ≠ ap.company.id)
    (htrim : jsTrim tgt.user_id ≠ "") :
    deleteUser s db df tgt.user_id = failWith db "Operação não permitida" := by
  have hreq := requirePermission_ok s db Permission.userManage hperm
  simp [deleteUser, hreq, htrim, hap, htgt, hcross]

/-- Claim C4: when the caller fails the `USER_MANAGE` permission check, each
of the three admin mutators throws before doing anything else: the stores are
untouched and nothing is logged. -/
theorem c4_denied_check_no_side_effects (s : Session) (db : DB) (env : CreateEnv)
    (email password role : String) (uf df : Bool) (profileId newRole userId : String)
    (h : checkPermission s db Permission.userManage = false) :
    createUser s db env email password role = ⟨Except.error PERMISSION_DENIED_MSG, db, []⟩ ∧
    updateUserRole s db uf profileId newRole = ⟨Except.error PERMISSION_DENIED_MSG, db, []⟩ ∧
    deleteUser s db df userId = ⟨Except.error PERMISSION_DENIED_MSG, db, []⟩ := by
  have hreq := requirePermission_denied s db Permission.userManage h
  exact ⟨by simp [createUser, hreq], by simp [updateUserRole, hreq], by simp [deleteUser, hreq]⟩

/-- Claim C4 witness: an unauthenticated caller against the empty stores. -/
theorem c4_witness :
    checkPermission none ⟨[], [], []⟩ Permission.userManage = false ∧
    deleteUser none ⟨[], [], []⟩ false "u9" = ⟨Except.error PERMISSION_DENIED_MSG, ⟨[], [], []⟩, []⟩ :=
  ⟨by decide,
   (c4_denied_check_no_side_effects none ⟨[], [], []⟩ ⟨Except.ok "x", "p", false, false⟩
     "a@b.c" "secret" "user" false false "p1" "user" "u9" (by decide)).2.2⟩

/-- Claim C3: a caller holding `USER_MANAGE` who targets a profile of another
company gets the generic denial "Operação não permitida" from both
`updateUserRole` and `deleteUser` (revealing nothing about the cross-tenant
cause), with no write or delete issued to any store. -/
theorem c3_tenant_isolation_generic_denial (s : Session) (db : DB) (uf df : Bool)
    (ap : UserProfile) (tgt : Profile) (newRole : String)
    (hperm : checkPermission s db Permission.userManage = true)
    (hap : getUserProfile s db = some ap)
    (htgt : db.profiles.find? (fun p => decide (p.id = tgt.id)) = some tgt)
    (htgtu : db.profiles.find? (fun p => decide (p.user_id = tgt.user_id)) = some tgt)
    (hcross : tgt.company_id ≠ ap.company.id)
    (htrim : jsTrim tgt.id ≠ "") (hutrim : jsTrim tgt.user_id ≠ "")
    (hrole : newRole = ROLES_ADMIN ∨ newRole = ROLES_USER) :
    updateUserRole s db uf tgt.id newRole = failWith db "Operação não permitida" ∧
    deleteUser s db df tgt.user_id = failWith db "Operação não permitida" :=
  ⟨updateUserRole_crossTenant s db uf ap tgt newRole hperm hap htgt hcross htrim hrole,
   deleteUser_crossTenant s db df ap tgt hperm hap htgtu hcross hutrim⟩

/-- Concrete two-tenant scenario: `u1` is the admin of company `cA`; the
target profile `p2` belongs to company `cB`. -/
def dbTwoTenants : DB :=
  ⟨[⟨"cA", "A", "u1", "t"⟩],
   [⟨"p1", "u1", "cA", "admin", "t"⟩, ⟨"p2", "u2", "cB", "user", "t"⟩],
   [⟨"u1", none⟩, ⟨"u2", none⟩]⟩

/-- Claim C3 witness: the concrete two-tenant scenario. -/
theorem c3_witness :
    checkPermission (some ⟨"u1", none⟩) dbTwoTenants Permission.userManage = true ∧
    updateUserRole (some ⟨"u1", none⟩) dbTwoTenants false "p2" "user" =
      failWith dbTwoTenants "Operação não permitida" ∧
    deleteUser (some ⟨"u1", none⟩) dbTwoTenants false "u2" =
      failWith dbTwoTenants "Operação não permitida" :=
  ⟨by decide,
   (c3_tenant_isolation_generic_denial (some ⟨"u1", none⟩) dbTwoTenants false false
      ⟨⟨"p1", "u1", "cA", "admin", "t"⟩, ⟨"cA", "A", "u1", "t"⟩⟩
      ⟨"p2", "u2", "cB", "user", "t"⟩ "user"
      (by decide) (by decide) (by decide) (by decide) (by decide) (by decide) (by decide)
      (Or.inr rfl)).1,
   (c3_tenant_isolation_generic_denial (some ⟨"u1", none⟩) dbTwoTenants false false
      ⟨⟨"p1", "u1", "cA", "admin", "t"⟩, ⟨"cA", "A", "u1", "t"⟩⟩
      ⟨"p2", "u2", "cB", "user", "t"⟩ "user"
      (by decide) (by decide) (by decide) (by decide) (by decide) (by decide) (by decide)
      (Or.inr rfl)).2⟩

/-- Claim C7 counterexample: in the concrete two-tenant scenario the
cross-tenant `updateUserRole` attempt returns the generic denial but emits no
log record at all — the internal audit record the claim asserts does not
exist (on this path the source performs no `console` call and `logAdminAction`
is only invoked after a successful mutation). -/
theorem c7_counterexample :
    (updateUserRole (some ⟨"u1", none⟩) dbTwoTenants false "p2" "user").result =
      Except.ok { success := false, error := some "Operação não permitida" } ∧
    (updateUserRole (some ⟨"u1", none⟩) dbTwoTenants false "p2" "user").logs = [] := by
  decide

/-- Claim C7 as amended: on a cross-company access attempt the caller receives
only the generic denial and no internal log record is emitted — audit logging
(`logAdminAction`) happens only after successful operations. -/
theorem c7_amended_no_audit_log_on_cross_tenant (s : Session) (db : DB) (uf df : Bool)
    (ap : UserProfile) (tgt : Profile) (newRole : String)
    (hperm : checkPermission s db Permission.userManage = true)
    (hap : getUserProfile s db = some ap)
    (htgt : db.profiles.find? (fun p => decide (p.id = tgt.id)) = some tgt)
    (htgtu : db.profiles.find? (fun p => decide (p.user_id = tgt.user_id)) = some tgt)
    (hcross : tgt.company_id ≠ ap.company.id)
    (htrim : jsTrim tgt.id ≠ "") (hutrim : jsTrim tgt.user_id ≠ "")
    (hrole : newRole = ROLES_ADMIN ∨ newRole = ROLES_USER) :
    ((updateUserRole s db uf tgt.id newRole).logs = [] ∧
      (updateUserRole s db uf tgt.id newRole).result =
        Except.ok { success := false, error := some "Operação não permitida" }) ∧
    ((deleteUser s db df tgt.user_id).logs = [] ∧
      (deleteUser s db df tgt.user_id).result =
        Except.ok { success := false, error := some "Operação não permitida" }) := by
  have h1 := updateUserRole_crossTenant s db uf ap tgt newRole hperm hap htgt hcross htrim hrole
  have h2 := deleteUser_crossTenant s db df ap tgt hperm hap htgtu hcross hutrim
  rw [h1, h2]
  exact ⟨⟨rfl, rfl⟩, ⟨rfl, rfl⟩⟩

/-- Claim C7 (amended) witness: the concrete two-tenant scenario. -/
theorem c7_amended_witness :
    checkPermission (some ⟨"u1", none⟩) dbTwoTenants Permission.userManage = true ∧
    (updateUserRole (some ⟨"u1", none⟩) dbTwoTenants false "p2" "user").logs = [] :=
  ⟨by decide,
   (c7_amended_no_audit_log_on_cross_tenant (some ⟨"u1", none⟩) dbTwoTenants false false
      ⟨⟨"p1", "u1", "cA", "admin", "t"⟩, ⟨"cA", "A", "u1", "t"⟩⟩
      ⟨"p2", "u2", "cB", "user", "t"⟩ "user"
      (by decide) (by decide) (by decide) (by decide) (by decide) (by decide) (by decide)
      (Or.inr rfl)).1.1⟩

/-- Claim C1: a principal that is unauthenticated, has no profile row, or
whose stored profile role is neither "admin" nor "user", gets
`checkPermission p = false` for every permission `p`, and
`requirePermission p` throws the permission-denied error; no default role is
substituted. -/
theorem c1_no_role_total_denial (s : Session) (db : DB) (p : Permission)
    (h : s = none ∨ getUserProfile s db = none ∨
      ∃ up, getUserProfile s db = some up ∧
        up.profile.role ≠ ROLES_ADMIN ∧ up.profile.role ≠ ROLES_USER) :
    checkPermission s db p = false ∧
    requirePermission s db p = Except.error PERMISSION_DENIED_MSG := by
  have hrole : getUserRole s db = none := by
    rcases h with h | h | ⟨up, hup, h1, h2⟩
    · subst h; rfl
    · unfold getUserRole; rw [h]
    · unfold getUserRole; rw [hup]; simp [h1, h2]
  have hc : checkPermission s db p = false := by
    unfold checkPermission; rw [hrole]
  exact ⟨hc, by unfold requirePermission; rw [hc]; rfl⟩

/-- Claim C1 witness: concrete unauthenticated principal. -/
theorem c1_witness :
    checkPermission none ⟨[], [], []⟩ Permission.userManage = false ∧
    requirePermission none ⟨[], [], []⟩ Permission.userManage =
      Except.error PERMISSION_DENIED_MSG :=
  c1_no_role_total_denial none ⟨[], [], []⟩ Permission.userManage (Or.inl rfl)

/-- Claim C5: for a principal resolved to a valid role `r`, the evaluator's
boolean answer for permission `p` is exactly membership of `p` in the static
table entry `ROLE_PERMISSIONS r`. -/
theorem c5_evaluator_matches_table (s : Session) (db : DB) (r : Role) (p : Permission)
    (h : getUserRole s db = some r) :
    checkPermission s db p = true ↔ p ∈ ROLE_PERMISSIONS r := by
  unfold checkPermission
  rw [h]
  cases r <;> cases p <;> decide

/-- Claim C5 witness: a concrete admin principal and the `USER_MANAGE`
permission. -/
theorem c5_witness :
    getUserRole (some ⟨"u1", none⟩)
      ⟨[⟨"c1", "A", "u1", "t"⟩], [⟨"p1", "u1", "c1", "admin", "t"⟩], []⟩ =
        some Role.admin ∧
    (checkPermission (some ⟨"u1", none⟩)
      ⟨[⟨"c1", "A", "u1", "t"⟩], [⟨"p1", "u1", "c1", "admin", "t"⟩], []⟩
      Permission.userManage = true ↔
      Permission.userManage ∈ ROLE_PERMISSIONS Role.admin) :=
  ⟨by decide,
   c5_evaluator_matches_table (some ⟨"u1", none⟩)
     ⟨[⟨"c1", "A", "u1", "t"⟩], [⟨"p1", "u1", "c1", "admin", "t"⟩], []⟩
     Role.admin Permission.userManage (by decide)⟩

/-- Claim-support lemma: if the caller passes the `USER_MANAGE` check and the
target's company has exactly one admin profile, then (whenever target and
caller share a company) the caller's profile IS that single admin profile. -/
theorem caller_is_last_admin (s : Session) (db : DB) (u : AuthUser) (ap : UserProfile)
    (tgt : Profile)
    (hs : s = some u)
    (hap : getUserProfile s db = some ap)
    (haprole : ap.profile.role = ROLES_ADMIN)
    (hco : tgt.company_id = ap.company.id)
    (hadmins : db.profiles.filter
      (fun p => decide (p.company_id = tgt.company_id ∧ p.role = ROLES_ADMIN)) = [tgt]) :
    ap.profile = tgt ∧ tgt.user_id = u.id := by
  obtain ⟨u', hs', hpu, hpmem, hcomp⟩ := getUserProfile_spec s db ap hap
  rw [hs] at hs'
  injection hs' with hu
  subst hu
  have hmem : ap.profile ∈ db.profiles.filter
      (fun p => decide (p.company_id = tgt.company_id ∧ p.role = ROLES_ADMIN)) := by
    rw [List.mem_filter]
    refine ⟨hpmem, ?_⟩
    simp only [decide_eq_true_eq]
    exact ⟨by rw [← hcomp]; exact hco.symm, haprole⟩
  rw [hadmins] at hmem
  have heq : ap.profile = tgt := by simpa using hmem
  exact ⟨heq, by rw [← heq]; exact hpu⟩

/-- Claim-support lemma: with a `USER_MANAGE`-passing caller, an
`updateUserRole` demotion of the single admin of its company always ends in
some `failWith` branch: a returned failure with untouched stores. -/
theorem updateUserRole_lastAdmin_fails (s : Session) (db : DB) (uf : Bool) (tgt : Profile)
    (hperm : checkPermission s db Permission.userManage = true)
    (htgt : db.profiles.find? (fun p => decide (p.id = tgt.id)) = some tgt)
    (hadmins : db.profiles.filter
      (fun p => decide (p.company_id = tgt.company_id ∧ p.role = ROLES_ADMIN)) = [tgt]) :
    ∃ msg, updateUserRole s db uf tgt.id ROLES_USER = failWith db msg := by
  obtain ⟨u, ap, hs, hap, haprole⟩ := checkPermission_userManage_spec s db hperm
  have hreq := requirePermission_ok s db Permission.userManage hperm
  by_cases htrim : jsTrim tgt.id = ""
  · exact ⟨"ID do usuário é obrigatório", by simp [updateUserRole, hreq, htrim]⟩
  have hvalid : ¬ (ROLES_USER ≠ ROLES_ADMIN ∧ ROLES_USER ≠ ROLES_USER) := by decide
  by_cases hco : tgt.company_id = ap.company.id
  · obtain ⟨heq, huid⟩ := caller_is_last_admin s db u ap tgt hs hap haprole hco hadmins
    have hrole_t : tgt.role = ROLES_ADMIN := by rw [← heq]; exact haprole
    have hempty : db.profiles.filter (fun p =>
        decide (p.company_id = ap.company.id ∧ p.role = ROLES_ADMIN ∧ ¬ p.user_id = u.id)) = [] := by
      refine List.filter_eq_nil_iff.mpr ?_
      intro a ha hpa
      simp only [decide_eq_true_eq] at hpa
      obtain ⟨h1, h2, h3⟩ := hpa
      apply h3
      have hamem : a ∈ db.profiles.filter
          (fun p => decide (p.company_id = tgt.company_id ∧ p.role = ROLES_ADMIN)) :=
        List.mem_filter.mpr ⟨ha, by
          simp only [decide_eq_true_eq]
          exact ⟨h1.trans hco.symm, h2⟩⟩
      rw [hadmins] at hamem
      have : a = tgt := by simpa using hamem
      rw [this, huid]
    subst hs
    refine ⟨"Você não pode rebaixar a si mesmo sendo o único administrador", ?_⟩
    simp only [updateUserRole, hreq, htrim, hvalid, hap, htgt, hco, huid, hrole_t, hempty]
    simp [hco, huid, hrole_t, hempty]
  · subst hs
    exact ⟨"Operação não permitida",
      by simp [updateUserRole, hreq, htrim, hvalid, hap, htgt, hco]⟩

/-- Claim-support lemma: with a `USER_MANAGE`-passing caller, a `deleteUser`
of the single admin of its company always ends in some `failWith` branch. -/
theorem deleteUser_lastAdmin_fails (s : Session) (db : DB) (df : Bool) (tgt : Profile)
    (hperm : checkPermission s db Permission.userManage = true)
    (htgtu : db.profiles.find? (fun p => decide (p.user_id = tgt.user_id)) = some tgt)
    (hadmins : db.profiles.filter
      (fun p => decide (p.company_id = tgt.company_id ∧ p.role = ROLES_ADMIN)) = [tgt]) :
    ∃ msg, deleteUser s db df tgt.user_id = failWith db msg := by
  obtain ⟨u, ap, hs, hap, haprole⟩ := checkPermission_userManage_spec s db hperm
  have hreq := requirePermission_ok s db Permission.userManage hperm
  by_cases htrim : jsTrim tgt.user_id = ""
  · exact ⟨"ID do usuário é obrigatório", by simp [deleteUser, hreq, htrim]⟩
  by_cases hco : tgt.company_id = ap.company.id
  · obtain ⟨heq, huid⟩ := caller_is_last_admin s db u ap tgt hs hap haprole hco hadmins
    subst hs
    refine ⟨"Você não pode deletar sua própria conta", ?_⟩
    simp [deleteUser, hreq, htrim, hap, htgtu, hco, huid.symm]
  · subst hs
    exact ⟨"Operação não permitida", by simp [deleteUser, hreq, htrim, hap, htgtu, hco]⟩

/-- Claim C2: in a company with exactly one admin profile, demoting that admin
to `user` via `updateUserRole` and deleting that admin via `deleteUser` both
return a failure result, and neither call changes any store row. -/
theorem c2_last_admin_protected (s : Session) (db : DB) (uf df : Bool) (tgt : Profile)
    (hperm : checkPermission s db Permission.userManage = true)
    (htgt : db.profiles.find? (fun p => decide (p.id = tgt.id)) = some tgt)
    (htgtu : db.profiles.find? (fun p => decide (p.user_id = tgt.user_id)) = some tgt)
    (hadmins : db.profiles.filter
      (fun p => decide (p.company_id = tgt.company_id ∧ p.role = ROLES_ADMIN)) = [tgt]) :
    ((∃ a, (updateUserRole s db uf tgt.id ROLES_USER).result = Except.ok a ∧ a.success = false) ∧
      (updateUserRole s db uf tgt.id ROLES_USER).db = db) ∧
    ((∃ a, (deleteUser s db df tgt.user_id).result = Except.ok a ∧ a.success = false) ∧
      (deleteUser s db df tgt.user_id).db = db) := by
  obtain ⟨m1, h1⟩ := updateUserRole_lastAdmin_fails s db uf tgt hperm htgt hadmins
  obtain ⟨m2, h2⟩ := deleteUser_lastAdmin_fails s db df tgt hperm htgtu hadmins
  rw [h1, h2]
  exact ⟨⟨⟨_, rfl, rfl⟩, rfl⟩, ⟨⟨_, rfl, rfl⟩, rfl⟩⟩

/-- Concrete single-admin scenario: `u1` is the only admin of company `cA`
(`u3` is a plain member). -/
def dbLastAdmin : DB :=
  ⟨[⟨"cA", "A", "u1", "t"⟩],
   [⟨"p1", "u1", "cA", "admin", "t"⟩, ⟨"p3", "u3", "cA", "user", "t"⟩],
   [⟨"u1", none⟩, ⟨"u3", none⟩]⟩

/-- Claim C2 witness: the concrete single-admin scenario. -/
theorem c2_witness :
    checkPermission (some ⟨"u1", none⟩) dbLastAdmin Permission.userManage = true ∧
    (updateUserRole (some ⟨"u1", none⟩) dbLastAdmin false "p1" ROLES_USER).db = dbLastAdmin ∧
    (deleteUser (some ⟨"u1", none⟩) dbLastAdmin false "u1").db = dbLastAdmin :=
  ⟨by decide,
   (c2_last_admin_protected (some ⟨"u1", none⟩) dbLastAdmin false false
      ⟨"p1", "u1", "cA", "admin", "t"⟩
      (by decide) (by decide) (by decide) (by decide)).1.2,
   (c2_last_admin_protected (some ⟨"u1", none⟩) dbLastAdmin false false
      ⟨"p1", "u1", "cA", "admin", "t"⟩
      (by decide) (by decide) (by decide) (by decide)).2.2⟩

/-- Claim C8: updating a same-company target to the role it already holds
succeeds and leaves every profile row exactly as it was (a state-level no-op
apart from the audit log and cache revalidation). -/
theorem c8_same_role_update_is_noop (s : Session) (db : DB)
    (ap : UserProfile) (tgt : Profile)
    (hperm : checkPermission s db Permission.userManage = true)
    (hap : getUserProfile s db = some ap)
    (htgt : db.profiles.find? (fun p => decide (p.id = tgt.id)) = some tgt)
    (hsame : tgt.company_id = ap.company.id)
    (htrim : jsTrim tgt.id ≠ "")
    (hvalidrole : tgt.role = ROLES_ADMIN ∨ tgt.role = ROLES_USER)
    (huniq : ∀ p ∈ db.profiles, p.id = tgt.id → p = tgt) :
    (∃ a, (updateUserRole s db false tgt.id tgt.role).result = Except.ok a ∧
      a.success = true) ∧
    (updateUserRole s db false tgt.id tgt.role).db = db := by
  obtain ⟨u, ap', hs, hap', -⟩ := checkPermission_userManage_spec s db hperm
  rw [hap] at hap'
  injection hap' with he
  subst he
  have hreq := requirePermission_ok s db Permission.userManage hperm
  have hvalid : ¬ (tgt.role ≠ ROLES_ADMIN ∧ tgt.role ≠ ROLES_USER) := by
    rcases hvalidrole with h | h <;> simp [h]
  have hguard : ¬ (tgt.user_id = u.id ∧ tgt.role = ROLES_ADMIN ∧ tgt.role = ROLES_USER) := by
    rintro ⟨-, h2, h3⟩
    rw [h2] at h3
    exact absurd h3 (by decide)
  have hmap : db.profiles.map
      (fun p => if p.id = tgt.id then { p with role := tgt.role } else p) = db.profiles := by
    rw [List.map_congr_left, List.map_id']
    intro a ha
    by_cases hid : a.id = tgt.id
    · rw [if_pos hid]
      have haeq := huniq a ha hid
      subst haeq
      rfl
    · rw [if_neg hid]
  subst hs
  constructor
  · refine ⟨⟨true, none, some ("Role do usuário atualizado para " ++
      (if tgt.role = ROLES_ADMIN then "administrador" else "usuário"))⟩, ?_, rfl⟩
    simp [updateUserRole, hreq, htrim, hvalid, hap, htgt, hsame, hguard, updateUserRoleApply]
  · simp [updateUserRole, hreq, htrim, hvalid, hap, htgt, hsame, hguard, updateUserRoleApply, hmap]

/-- Claim C8 witness: demote-to-same-role of the plain member `u3` in the
single-admin scenario. -/
theorem c8_witness :
    checkPermission (some ⟨"u1", none⟩) dbLastAdmin Permission.userManage = true ∧
    (updateUserRole (some ⟨"u1", none⟩) dbLastAdmin false "p3" "user").db = dbLastAdmin :=
  ⟨by decide,
   (c8_same_role_update_is_noop (some ⟨"u1", none⟩) dbLastAdmin
      ⟨⟨"p1", "u1", "cA", "admin", "t"⟩, ⟨"cA", "A", "u1", "t"⟩⟩
      ⟨"p3", "u3", "cA", "user", "t"⟩
      (by decide) (by decide) (by decide) (by decide) (by decide) (Or.inr rfl)
      (by decide)).2⟩

/-- Claim C6: when the profile insert fails after the auth identity `uid` was
successfully created, `createUser` attempts the compensating identity delete
and returns the same failure result whether or not that compensation
succeeds: if the compensation works the stores end exactly as they started,
and if it fails the orphaned identity stays, a high-severity log entry is
emitted, and the returned result is unchanged. -/
theorem c6_compensation_best_effort (s : Session) (db : DB) (env : CreateEnv)
    (ap : UserProfile) (email password role uid : String)
    (hperm : checkPermission s db Permission.userManage = true)
    (hap : getUserProfile s db = some ap)
    (hco : ap.company.id ≠ "")
    (hem : jsToLower (jsTrim email) ≠ "")
    (hreg : emailRegexTest (jsToLower (jsTrim email)) = true)
    (hpw : ¬ password.length < 6)
    (hrole : ¬ (role ≠ ROLES_ADMIN ∧ role ≠ ROLES_USER))
    (hac : env.authCreate = Except.ok uid)
    (hpf : env.profileInsertFails = true)
    (hfresh : ∀ a ∈ db.authUsers, ¬ a.id = uid) :
    (createUser s db env email password role).result =
      Except.ok { success := false, error := some "Usuário criado, mas houve um erro ao configurar o perfil. Entre em contato com o suporte." } ∧
    (env.cleanupFails = false → (createUser s db env email password role).db = db) ∧
    (env.cleanupFails = true →
      (createUser s db env email password role).db =
        { db with authUsers := db.authUsers ++ [⟨uid, some (jsToLower (jsTrim email))⟩] } ∧
      (createUser s db env email password role).logs = [LogEntry.consoleError "createUser.cleanup"]) := by
  have hreq := requirePermission_ok s db Permission.userManage hperm
  have hfilter : db.authUsers.filter (fun a => !decide (a.id = uid)) = db.authUsers :=
    List.filter_eq_self.mpr (fun a ha => by simpa using hfresh a ha)
  cases hcf : env.cleanupFails with
  | false =>
    have hout : createUser s db env email password role =
        ⟨Except.ok { success := false, error := some "Usuário criado, mas houve um erro ao configurar o perfil. Entre em contato com o suporte." }, db, []⟩ := by
      simp only [createUser, hreq, hac, createUserApply, hpf, hcf]
      simp [hem, hreg, hpw, hrole, hap, hco, hfilter]
    rw [hout]
    exact ⟨rfl, fun _ => rfl, fun h => absurd h (by decide)⟩
  | true =>
    have hout : createUser s db env email password role =
        ⟨Except.ok { success := false, error := some "Usuário criado, mas houve um erro ao configurar o perfil. Entre em contato com o suporte." },
         { db with authUsers := db.authUsers ++ [⟨uid, some (jsToLower (jsTrim email))⟩] },
         [LogEntry.consoleError "createUser.cleanup"]⟩ := by
      simp only [createUser, hreq, hac, createUserApply, hpf, hcf]
      simp [hem, hreg, hpw, hrole, hap, hco]
    rw [hout]
    exact ⟨rfl, fun h => absurd h (by decide), fun _ => ⟨rfl, rfl⟩⟩

/-- Claim C6 witness: concrete run where the profile insert fails after the
identity was created and the compensation succeeds: the stores are restored. -/
theorem c6_witness :
    (createUser (some ⟨"u1", none⟩) dbLastAdmin ⟨Except.ok "u9", "p9", true, false⟩
      "New@X.com" "secret1" "user").result =
      Except.ok { success := false, error := some "Usuário criado, mas houve um erro ao configurar o perfil. Entre em contato com o suporte." } ∧
    (createUser (some ⟨"u1", none⟩) dbLastAdmin ⟨Except.ok "u9", "p9", true, false⟩
      "New@X.com" "secret1" "user").db = dbLastAdmin :=
  ⟨(c6_compensation_best_effort (some ⟨"u1", none⟩) dbLastAdmin
      ⟨Except.ok "u9", "p9", true, false⟩
      ⟨⟨"p1", "u1", "cA", "admin", "t"⟩, ⟨"cA", "A", "u1", "t"⟩⟩
      "New@X.com" "secret1" "user" "u9"
      (by decide) (by decide) (by decide) (by decide) (by decide) (by decide)
      (by decide) rfl rfl (by decide)).1,
   (c6_compensation_best_effort (some ⟨"u1", none⟩) dbLastAdmin
      ⟨Except.ok "u9", "p9", true, false⟩
      ⟨⟨"p1", "u1", "cA", "admin", "t"⟩, ⟨"cA", "A", "u1", "t"⟩⟩
      "New@X.com" "secret1" "user" "u9"
      (by decide) (by decide) (by decide) (by decide) (by decide) (by decide)
      (by decide) rfl rfl (by decide)).2.1 rfl⟩

/-- Claim C9: for an authenticated user with no existing profile row (and
fresh generated ids), `ensureUserProfile` creates the profile with role
`'user'`, the auto-created company has zero admin profiles, and its sole
member fails the `USER_MANAGE` check afterwards. -/
theorem c9_ensure_creates_role_user (u : AuthUser) (db : DB) (env : EnsureEnv)
    (hnc : env.companyInsertFails = false)
    (hnp : env.profileInsertFails = false)
    (hnoprof : db.profiles.find? (fun p => decide (p.user_id = u.id)) = none)
    (hfreshC : ∀ c ∈ db.companies, ¬ c.id = env.newCompanyId)
    (hfreshP : ∀ p ∈ db.profiles, ¬ p.company_id = env.newCompanyId) :
    ∃ up, (ensureUserProfile (some u) db env).result = Except.ok (some up) ∧
      up.profile.role = ROLES_USER ∧
      ((ensureUserProfile (some u) db env).db.profiles.filter (fun p =>
        decide (p.company_id = env.newCompanyId ∧ p.role = ROLES_ADMIN))) = [] ∧
      checkPermission (some u) (ensureUserProfile (some u) db env).db
        Permission.userManage = false := by
  have hgup : getUserProfile (some u) db = none := by
    simp [getUserProfile, hnoprof]
  have hdb : (ensureUserProfile (some u) db env).db =
      ⟨db.companies ++ [ensureNewCompany u env],
       db.profiles ++ [ensureNewProfile u env], db.authUsers⟩ := by
    simp [ensureUserProfile, hgup, hnc, hnp]
  refine ⟨⟨ensureNewProfile u env, ensureNewCompany u env⟩, ?_, rfl, ?_, ?_⟩
  · simp [ensureUserProfile, hgup, hnc, hnp]
  · rw [hdb]
    show (db.profiles ++ [ensureNewProfile u env]).filter
      (fun p => decide (p.company_id = env.newCompanyId ∧ p.role = ROLES_ADMIN)) = []
    rw [List.filter_append,
      List.filter_eq_nil_iff.mpr (fun p hp => by
        simp only [decide_eq_true_eq]
        rintro ⟨hc, -⟩
        exact hfreshP p hp hc)]
    simp [ensureNewProfile, ROLES_ADMIN]
  · rw [hdb]
    have hfindcnone : db.companies.find? (fun c => decide (c.id = env.newCompanyId)) = none :=
      List.find?_eq_none.mpr (fun c hc => by simpa using hfreshC c hc)
    simp [checkPermission, getUserRole, getUserProfile, hnoprof, hfindcnone,
      ensureNewProfile, ensureNewCompany, ROLES_ADMIN, ROLES_USER,
      roleHasPermission, ROLE_PERMISSIONS]

/-- Claim C9 witness: a concrete fresh user against the empty stores — the
single created profile holds role `user` and fails the `USER_MANAGE` check. -/
theorem c9_witness :
    (ensureUserProfile (some ⟨"u1", some "a@b.c"⟩) ⟨[], [], []⟩
      ⟨"c1", "p1", false, false, false⟩).db.profiles = [⟨"p1", "u1", "c1", "user", ""⟩] ∧
    checkPermission (some ⟨"u1", some "a@b.c"⟩)
      (ensureUserProfile (some ⟨"u1", some "a@b.c"⟩) ⟨[], [], []⟩
        ⟨"c1", "p1", false, false, false⟩).db Permission.userManage = false := by
  refine ⟨by decide, ?_⟩
  obtain ⟨up, -, -, -, h4⟩ := c9_ensure_creates_role_user ⟨"u1", some "a@b.c"⟩ ⟨[], [], []⟩
    ⟨"c1", "p1", false, false, false⟩ rfl rfl (by decide)
    (by intro c hc; cases hc) (by intro p hp; cases hp)
  exact h4

/-- Claim C10: `checkAllPermissions` on the empty list answers exactly
"the principal resolves to some valid role": `true` under any valid role
(vacuous conjunction), `false` when no role resolves. -/
theorem c10_empty_list_distinguishes_roles (s : Session) (db : DB) :
    checkAllPermissions s db [] = (getUserRole s db).isSome := by
  unfold checkAllPermissions
  cases h : getUserRole s db <;> simp [roleHasAllPermissions]

end SaaS
